import Mathlib

/-!
Shallow embedding of `src/src/debugger/DWARFManager.cpp` (Virtual-Jaguar-Rx
DWARF debug-information manager) and proofs about the claims of its
specification.  Machine integers (`size_t`, `uint32_t`, `int`) are modelled as
`Nat`/`Int`, with explicit `% 2 ^ w` where wrap-around matters (the `uint32_t`
compilation-unit counter, byte values).  Fallible C idioms (null pointers,
out-of-bounds array reads) are modelled with `Option` and an explicit
result type distinguishing a returned value, a returned null/zero sentinel,
and an out-of-bounds access.
-/

namespace DWARF

/-! ## DWARF tag and type-tag constants (from dwarf.h and DWARFManager.cpp) -/

def DW_TAG_array_type : Nat := 0x01

def DW_TAG_enumeration_type : Nat := 0x04

def DW_TAG_formal_parameter : Nat := 0x05

def DW_TAG_lexical_block : Nat := 0x0b

def DW_TAG_member : Nat := 0x0d

def DW_TAG_pointer_type : Nat := 0x0f

def DW_TAG_compile_unit : Nat := 0x11

def DW_TAG_structure_type : Nat := 0x13

def DW_TAG_subroutine_type : Nat := 0x15

def DW_TAG_typedef : Nat := 0x16

def DW_TAG_union_type : Nat := 0x17

def DW_TAG_subrange_type : Nat := 0x21

def DW_TAG_base_type : Nat := 0x24

def DW_TAG_const_type : Nat := 0x26

def DW_TAG_subprogram : Nat := 0x2e

def DW_TAG_variable : Nat := 0x34

/-- Type-tag bits for `VariablesStruct.TypeTag` (DWARFManager.cpp lines 51-59). -/
def TypeTag_structure : Nat := 0x01

def TypeTag_pointer : Nat := 0x02

def TypeTag_subrange : Nat := 0x04

def TypeTag_arraytype : Nat := 0x08

def TypeTag_consttype : Nat := 0x10

def TypeTag_typedef : Nat := 0x20

def TypeTag_enumeration_type : Nat := 0x40

def TypeTag_subroutine_type : Nat := 0x80

def TypeTag_union : Nat := 0x100

/-- `size_t` is 64 bits on the (LP64) host; `HighPC == ~0` compares against
all-ones after the usual conversions. -/
def sizetAllOnes : Nat := 2 ^ 64 - 1

/-! ## LEB128 decoding

`ReadLEB128` / `ReadULEB128` live in `LEB128.h` / `LEB128.cpp`, which is not
part of the sources under verification; the spec treats LEB128 varint decoding
as a primitive utility.  Both are modelled from the spec below, decoding a
finite byte list (the C functions read bytes until one with a clear
continuation bit; our input list is the remainder of the location block). -/

/-- Modelled from the spec: helper for unsigned LEB128 decoding; accumulates
7 bits per byte until a byte with the continuation bit (0x80) clear. -/
def ReadULEB128Aux : List Nat → Nat → Nat → Nat
  | [], _, acc => acc
  | b :: bs, shift, acc =>
    let b := b % 256
    if b < 128 then acc + b * 2 ^ shift
    else ReadULEB128Aux bs (shift + 7) (acc + (b % 128) * 2 ^ shift)

/-- Modelled from the spec: `ReadULEB128` from `LEB128.h` (file not under
src/): unsigned LEB128 variable-length integer decoding. -/
def ReadULEB128 (bytes : List Nat) : Nat := ReadULEB128Aux bytes 0 0

/-- Modelled from the spec: helper for signed LEB128 decoding; like the
unsigned form but the final byte's bit 6 sign-extends the result. -/
def ReadLEB128Aux : List Nat → Nat → Nat → Int
  | [], _, acc => Int.ofNat acc
  | b :: bs, shift, acc =>
    let b := b % 256
    if b < 128 then
      if b < 64 then Int.ofNat (acc + b * 2 ^ shift)
      else Int.ofNat (acc + b * 2 ^ shift) - Int.ofNat (2 ^ (shift + 7))
    else ReadLEB128Aux bs (shift + 7) (acc + (b % 128) * 2 ^ shift)

/-- Modelled from the spec: `ReadLEB128` from `LEB128.h` (file not under
src/): signed LEB128 variable-length integer decoding. -/
def ReadLEB128 (bytes : List Nat) : Int := ReadLEB128Aux bytes 0 0

/-! ## Data model (the internal structures of DWARFManager.cpp) -/

/-- Per-unit source-file status (`DWARFstatus` from DWARFManager.h). -/
inductive DWARFstatus where
  | ok
  | noFile
  | outdatedFile
  | noFileInfo
  deriving DecidableEq, Repr

/-- `DMIStruct_LineSrc`: one line record of a subprogram (the cached source
text pointer `PtrLineSrc` is not inspected by any claim and is omitted). -/
structure LineRec where
  tag : Nat := 0
  startPC : Nat := 0
  numLineSrc : Nat := 0
  deriving DecidableEq, Repr

/-- `VariablesStruct`, flattened: `Addr` and `Offset` share a union in C and
are written by disjoint call sites (unit-scope variables write `Addr`,
subprogram children write `Offset`); the nested member table `TabVariables`
forms a tree that never feeds back into these scalar fields and is omitted. -/
structure VariableRec where
  op : Nat := 0
  addr : Nat := 0
  offset : Int := 0
  name : Option String := none
  typeOffset : Nat := 0
  typeByteSize : Nat := 0
  typeTag : Nat := 0
  typeEncoding : Nat := 0
  typeName : String := ""
  deriving DecidableEq, Repr

/-- `StructureMembersStruct`. -/
structure MemberRec where
  name : Option String := none
  typeOffset : Nat := 0
  dataMemberLocation : Nat := 0
  deriving DecidableEq, Repr

/-- `BaseTypeStruct` (its enumeration list is not inspected by any claim). -/
structure TypeRec where
  tag : Nat := 0
  offset : Nat := 0
  typeOffset : Nat := 0
  byteSize : Nat := 0
  encoding : Nat := 0
  name : Option String := none
  members : List MemberRec := []
  deriving DecidableEq, Repr

/-- `SubProgStruct` (the cached line-text pointer is omitted, see `LineRec`). -/
structure SubProg where
  tag : Nat := 0
  numLineSrc : Nat := 0
  startPC : Nat := 0
  lowPC : Nat := 0
  highPC : Nat := 0
  frameBase : Nat := 0
  name : Option String := none
  linesSrc : List LineRec := []
  ptrVariables : List VariableRec := []
  deriving DecidableEq, Repr

/-- `CUStruct`.  Null-able allocations are modelled with `Option`:
`linesLoadSrc = none` models `PtrLinesLoadSrc == NULL`, and its entries model
the individually allocated line strings (null entries occur when the pointer
table is allocated without loaded text).  `usedLinesSrc = []` models
`PtrUsedLinesSrc == NULL` (it is allocated exactly when the count is
non-zero). -/
structure CU where
  tag : Nat := 0
  language : Nat := 0
  lowPC : Nat := 0
  highPC : Nat := 0
  producer : Option String := none
  sourceFilename : String := ""
  sourceFileDirectory : Option String := none
  fullFilename : String := ""
  nbLinesLoadSrc : Nat := 0
  linesLoadSrc : Option (List (Option String)) := none
  subProgs : List SubProg := []
  types : List TypeRec := []
  ptrVariables : List VariableRec := []
  usedLinesSrc : List (Nat × Nat) := []
  usedNumLines : Option (List Nat) := none
  lastNumUsedLinesSrc : Nat := 0
  status : DWARFstatus := .ok
  deriving DecidableEq, Repr

/-- Result of a C function returning a pointer or scalar: `val a` is a return
of a valid value, `nullR` a returned `NULL`/`0` sentinel, `oob` an
out-of-bounds access whose behavior is undefined. -/
inductive CRes (α : Type) where
  | val (a : α)
  | nullR
  | oob
  deriving DecidableEq, Repr

/-! ## Location expression decoding and variable entry parsing
(DWARFManager_InitDMI, lines 732-814 for unit-scope variables and
lines 1136-1226 for subprogram children) -/

/-- One attribute of a debug entry, as delivered by the session provider. -/
inductive AttrVal where
  | location (block : List Nat)
  | typeRef (off : Nat)
  | nameAttr (s : String)
  | declFile
  | declLine (n : Nat)
  | otherAttr
  deriving DecidableEq, Repr

/-- Byte `i` of a location block (`unsigned char` read). -/
def byteAt (block : List Nat) (i : Nat) : Nat := block.getD i 0 % 256

/-- Big-endian composition of the four operand bytes of a length-5 location
block (line 754). -/
def beAddr4 (block : List Nat) : Nat :=
  byteAt block 1 * 2 ^ 24 + byteAt block 2 * 2 ^ 16 + byteAt block 3 * 2 ^ 8 +
    byteAt block 4

/-- Attribute switch for a unit-scope (global) variable entry
(lines 744-788): `DW_AT_location` sets `Op` from the first block byte and,
for a block of total length 5 only, `Addr` from the 4 operand bytes
big-endian; other block lengths leave `Addr` unchanged (zero). -/
def applyGlobalVarAttr (v : VariableRec) : AttrVal → VariableRec
  | .location block =>
    let v := { v with op := byteAt block 0 }
    if block.length = 5 then { v with addr := beAddr4 block } else v
  | .typeRef off => { v with typeOffset := off }
  | .nameAttr s => { v with name := some s }
  | _ => v

/-- Parse one unit-scope variable entry from its attribute list (the struct
slot is zeroed by `memset` first). -/
def parseGlobalVariable (attrs : List AttrVal) : VariableRec :=
  attrs.foldl applyGlobalVarAttr {}

/-- Validity check after parsing a unit-scope variable (lines 795-810): the
entry is kept (count incremented) only when a name is present and the decoded
address is non-zero; otherwise the slot is abandoned. -/
def addGlobalVariable (vars : List VariableRec) (v : VariableRec) :
    List VariableRec :=
  match v.name with
  | some _ => if v.addr ≠ 0 then vars ++ [v] else vars
  | none => vars

/-- Build the unit-scope (global) variable list from the variable entries of
a compilation unit's children. -/
def buildGlobalVariables (entries : List (List AttrVal)) : List VariableRec :=
  entries.foldl (fun vars e => addGlobalVariable vars (parseGlobalVariable e)) []

/-- Attribute switch for a subprogram child (local variable or formal
parameter, lines 1149-1216): `DW_AT_location` sets `Op` from the first block
byte; for block lengths 2-5 the operand decodes as signed LEB128 for a
`DW_TAG_variable` child and as unsigned LEB128 for a `DW_TAG_formal_parameter`
child; length 1 and other lengths leave the offset unchanged (zero). -/
def applyLocalVarAttr (dieTag : Nat) (v : VariableRec) : AttrVal → VariableRec
  | .location block =>
    let v := { v with op := byteAt block 0 }
    if 2 ≤ block.length ∧ block.length ≤ 5 then
      if dieTag = DW_TAG_variable then
        { v with offset := ReadLEB128 (block.drop 1) }
      else if dieTag = DW_TAG_formal_parameter then
        { v with offset := Int.ofNat (ReadULEB128 (block.drop 1)) }
      else v
    else v
  | .typeRef off => { v with typeOffset := off }
  | .nameAttr s => { v with name := some s }
  | _ => v

/-- Parse one subprogram child entry from its attribute list. -/
def parseLocalVariable (dieTag : Nat) (attrs : List AttrVal) : VariableRec :=
  attrs.foldl (applyLocalVarAttr dieTag) {}

/-- Build a subprogram's local variable list from its child entries
(lines 1127-1238): every `DW_TAG_formal_parameter` / `DW_TAG_variable` child
is appended and the count incremented unconditionally (line 1223); there is
no name or offset validity check on this path.  Other child tags are
skipped. -/
def buildLocalVariables (entries : List (Nat × List AttrVal)) :
    List VariableRec :=
  entries.foldl
    (fun vars e =>
      if e.1 = DW_TAG_variable ∨ e.1 = DW_TAG_formal_parameter then
        vars ++ [parseLocalVariable e.1 e.2]
      else vars) []

/-! ## Type resolution (DWARFManager_InitInfosVariable, lines 1420-1579)

The C function walks the current unit's type list with an index `j`,
restarting the scan (`j = -1`) whenever a case follows a further type-offset.
The local variable `TypeOffset` is threaded separately from the variable
record (whose own `TypeOffset` field is never overwritten).  The member-table
fill for structures (`TabVariables`, lines 1463-1478) writes only the nested
variable table and never any of the scalar fields embedded here. -/

/-- One matched type record: the `switch (PtrCU[NbCU].PtrTypes[j].Tag)` body.
Returns the updated variable state, the updated local `TypeOffset`, and
whether the scan restarts (`j = -1`).  `strcat` with a null type name is
undefined behavior in C; it is modelled as appending nothing. -/
def resolveTypeStep (t : TypeRec) (tOff : Nat) (v : VariableRec) :
    VariableRec × Nat × Bool :=
  if t.tag = DW_TAG_subroutine_type then
    ({ v with typeTag := v.typeTag ||| TypeTag_subroutine_type,
              typeName := v.typeName ++ " (* ) ()" }, tOff, false)
  else if t.tag = DW_TAG_structure_type ∨ t.tag = DW_TAG_union_type then
    let v := { v with typeTag := v.typeTag |||
      (if t.tag = DW_TAG_structure_type then TypeTag_structure else TypeTag_union) }
    let v :=
      if v.typeTag &&& TypeTag_typedef = 0 then
        match t.name with
        | some s => { v with typeName := v.typeName ++ s }
        | none => v
      else v
    if t.typeOffset ≠ 0 then (v, t.typeOffset, true)
    else
      let v :=
        if v.typeTag &&& TypeTag_pointer ≠ 0 then
          { v with typeName := v.typeName ++ "* " }
        else v
      (v, t.typeOffset, false)
  else if t.tag = DW_TAG_pointer_type then
    let v := { v with typeTag := v.typeTag ||| TypeTag_pointer,
                      typeByteSize := t.byteSize, typeEncoding := 0x10 }
    if t.typeOffset = 0 then
      ({ v with typeName := v.typeName ++ "void* " }, t.typeOffset, false)
    else (v, t.typeOffset, true)
  else if t.tag = DW_TAG_enumeration_type then
    let v := { v with typeTag := v.typeTag ||| TypeTag_enumeration_type,
                      typeByteSize := t.byteSize }
    let v :=
      if t.encoding = 0 then
        if t.byteSize = 4 then { v with typeEncoding := 0x7 }
        else { v with typeEncoding := 0 }
      else { v with typeEncoding := t.encoding }
    (v, tOff, false)
  else if t.tag = DW_TAG_typedef then
    let v :=
      if v.typeTag &&& TypeTag_typedef = 0 then
        { v with typeTag := v.typeTag ||| TypeTag_typedef,
                 typeName := v.typeName ++ (t.name.getD "") }
      else v
    if t.typeOffset ≠ 0 then (v, t.typeOffset, true) else (v, t.typeOffset, false)
  else if t.tag = DW_TAG_subrange_type then
    ({ v with typeTag := v.typeTag ||| TypeTag_subrange }, tOff, false)
  else if t.tag = DW_TAG_array_type then
    let v := { v with typeTag := v.typeTag ||| TypeTag_arraytype }
    if t.typeOffset ≠ 0 then (v, t.typeOffset, true) else (v, t.typeOffset, false)
  else if t.tag = DW_TAG_const_type then
    let v := { v with typeTag := v.typeTag ||| TypeTag_consttype,
                      typeName := v.typeName ++ "const " }
    if t.typeOffset ≠ 0 then (v, t.typeOffset, true) else (v, t.typeOffset, false)
  else if t.tag = DW_TAG_base_type then
    let v :=
      if v.typeTag &&& TypeTag_typedef = 0 then
        { v with typeName := v.typeName ++ (t.name.getD "") }
      else v
    let v :=
      if v.typeTag &&& TypeTag_pointer ≠ 0 then
        { v with typeName := v.typeName ++ "* " }
      else { v with typeByteSize := t.byteSize, typeEncoding := t.encoding }
    let v :=
      if v.typeTag &&& TypeTag_arraytype ≠ 0 then
        { v with typeName := v.typeName ++ "[]" }
      else v
    (v, tOff, false)
  else (v, tOff, false)

/-- The scan loop `for (j = 0; j < NbTypes; j++)` with restart; a cycle in the
type graph makes the C loop run forever, so the embedding carries fuel (one
unit per loop iteration). -/
def resolveVarLoop (types : List TypeRec) :
    Nat → Nat → Nat → VariableRec → VariableRec
  | 0, _, _, v => v
  | fuel + 1, j, tOff, v =>
    match types.get? j with
    | none => v
    | some t =>
      if tOff = t.offset then
        match resolveTypeStep t tOff v with
        | (v2, tOff2, true) => resolveVarLoop types fuel 0 tOff2 v2
        | (v2, tOff2, false) => resolveVarLoop types fuel (j + 1) tOff2 v2
      else resolveVarLoop types fuel (j + 1) tOff v

/-- `DWARFManager_InitInfosVariable`: allocate the (empty) rendered type name
and run the resolution scan from the variable's starting type-offset. -/
def DWARFManager_InitInfosVariable (types : List TypeRec) (fuel : Nat)
    (v : VariableRec) : VariableRec :=
  resolveVarLoop types fuel 0 v.typeOffset { v with typeName := "" }

/-! ## Query API -/

/-- Outcome of an inner scan loop: an executed `return n`, falling through to
the enclosing loop, or an out-of-bounds read. -/
inductive ScanOut where
  | ret (n : Nat)
  | fall
  | oob
  deriving DecidableEq, Repr

/-- The per-subprogram line-record scan of `DWARFManager_GetNumLineFromAdr`
(lines 2152-2165): records at or below the target return only on an exact
address (and tag) match; the first record above the target returns the
previous record's line; running past the last record falls through.  When the
very first record is above the target the C code reads `PtrLinesSrc[-1]`,
modelled as `oob`. -/
def scanLinesSrc (tagArg adr : Nat) :
    Option LineRec → List LineRec → ScanOut
  | _, [] => .fall
  | prev, l :: ls =>
    if l.startPC ≤ adr then
      if l.startPC = adr ∧ (tagArg = 0 ∨ l.tag = tagArg) then .ret l.numLineSrc
      else scanLinesSrc tagArg adr (some l) ls
    else
      match prev with
      | some p => .ret p.numLineSrc
      | none => .oob

/-- Lookup inside one subprogram (lines 2146-2166): an exact start-address
match with tag 0 or `DW_TAG_subprogram` short-circuits to the subprogram's
declaration line; otherwise the line records are scanned. -/
def subProgNumLine (tagArg adr : Nat) (sp : SubProg) : ScanOut :=
  if sp.startPC = adr ∧ (tagArg = 0 ∨ tagArg = DW_TAG_subprogram) then
    .ret sp.numLineSrc
  else scanLinesSrc tagArg adr none sp.linesSrc

/-- The subprogram loop of `DWARFManager_GetNumLineFromAdr` (lines
2142-2174). -/
def subProgsNumLine (tagArg adr : Nat) : List SubProg → ScanOut
  | [] => .fall
  | sp :: sps =>
    if sp.lowPC ≤ adr ∧ adr < sp.highPC then
      match subProgNumLine tagArg adr sp with
      | .ret n => .ret n
      | .oob => .oob
      | .fall => subProgsNumLine tagArg adr sps
    else subProgsNumLine tagArg adr sps

/-- The unit-level used-lines scan (lines 2177-2183): exact address match
only. -/
def usedLinesNumLine (adr : Nat) : List (Nat × Nat) → Option Nat
  | [] => none
  | u :: us => if u.1 = adr then some u.2 else usedLinesNumLine adr us

/-- The compilation-unit loop of `DWARFManager_GetNumLineFromAdr`. -/
def cusNumLine (tagArg adr : Nat) : List CU → Option Nat
  | [] => some 0
  | cu :: cus =>
    if cu.lowPC ≤ adr ∧ adr < cu.highPC then
      match subProgsNumLine tagArg adr cu.subProgs with
      | .ret n => some n
      | .oob => none
      | .fall =>
        match usedLinesNumLine adr cu.usedLinesSrc with
        | some n => some n
        | none => cusNumLine tagArg adr cus
    else cusNumLine tagArg adr cus

/-- `DWARFManager_GetNumLineFromAdr` (lines 2136-2188).  `some n` is the
returned line number (`some 0` is the not-found sentinel); `none` is the
out-of-bounds read of `PtrLinesSrc[-1]`. -/
def DWARFManager_GetNumLineFromAdr (cus : List CU) (adr tagArg : Nat) :
    Option Nat :=
  cusNumLine tagArg adr cus

/-- Inner loop of `DWARFManager_GetSymbolnameFromAdr` (lines 1590-1596):
return the name field (possibly a null pointer) on an exact start-address
match. -/
def subProgsSymbol (adr : Nat) : List SubProg → Option (Option String)
  | [] => none
  | sp :: sps =>
    if sp.startPC = adr then some sp.name else subProgsSymbol adr sps

/-- `DWARFManager_GetSymbolnameFromAdr` (lines 1584-1601): `none` is a `NULL`
return (fall-through or a null stored name, observationally identical). -/
def DWARFManager_GetSymbolnameFromAdr (cus : List CU) (adr : Nat) :
    Option String :=
  match cus with
  | [] => none
  | cu :: rest =>
    if cu.lowPC ≤ adr ∧ adr < cu.highPC then
      match subProgsSymbol adr cu.subProgs with
      | some r => r
      | none => DWARFManager_GetSymbolnameFromAdr rest adr
    else DWARFManager_GetSymbolnameFromAdr rest adr

/-- Inner loop of `DWARFManager_GetFunctionName` (lines 2199-2205): return
the subprogram name on a PC-range hit. -/
def subProgsFunctionName (adr : Nat) : List SubProg → Option (Option String)
  | [] => none
  | sp :: sps =>
    if sp.lowPC ≤ adr ∧ adr < sp.highPC then some sp.name
    else subProgsFunctionName adr sps

/-- `DWARFManager_GetFunctionName` (lines 2193-2210). -/
def DWARFManager_GetFunctionName (cus : List CU) (adr : Nat) : Option String :=
  match cus with
  | [] => none
  | cu :: rest =>
    if cu.lowPC ≤ adr ∧ adr < cu.highPC then
      match subProgsFunctionName adr cu.subProgs with
      | some r => r
      | none => DWARFManager_GetFunctionName rest adr
    else DWARFManager_GetFunctionName rest adr

/-- Inner loops of the local branch of `DWARFManager_GetInfosVariable`
(lines 1695-1707): find the first subprogram whose PC range contains the
address. -/
def subProgsFindVars (adr : Nat) : List SubProg → Option (List VariableRec)
  | [] => none
  | sp :: sps =>
    if sp.lowPC ≤ adr ∧ adr < sp.highPC then some sp.ptrVariables
    else subProgsFindVars adr sps

/-- Compilation-unit loop for the local branch of
`DWARFManager_GetInfosVariable`. -/
def cusFindLocalVars (adr : Nat) : List CU → Option (List VariableRec)
  | [] => none
  | cu :: cus =>
    if cu.lowPC ≤ adr ∧ adr < cu.highPC then
      match subProgsFindVars adr cu.subProgs with
      | some vs => some vs
      | none => cusFindLocalVars adr cus
    else cusFindLocalVars adr cus

/-- `&PtrVariables[Index - 1]` with no bounds check (line 1703): any index
outside `1..length` is an out-of-bounds access (`Index` is a `size_t`, so
index 0 wraps to `SIZE_MAX`). -/
def varAtUnchecked (vars : List VariableRec) (idx : Nat) : CRes VariableRec :=
  if 1 ≤ idx ∧ idx ≤ vars.length then .val (vars.getD (idx - 1) {})
  else .oob

/-- Global branch of `DWARFManager_GetInfosVariable` (lines 1710-1726): walk
the units, returning `&PtrVariables[Index - 1]` once the running index fits
in a unit's count (index 0 underflows: out-of-bounds), else subtracting the
count; falling off the end returns `NULL`. -/
def globalVarsLookup (idx : Nat) : List CU → CRes VariableRec
  | [] => .nullR
  | cu :: cus =>
    if cu.ptrVariables.length ≠ 0 then
      if idx ≤ cu.ptrVariables.length then
        if 1 ≤ idx then .val (cu.ptrVariables.getD (idx - 1) {}) else .oob
      else globalVarsLookup (idx - cu.ptrVariables.length) cus
    else globalVarsLookup idx cus

/-- `DWARFManager_GetInfosVariable` (lines 1689-1729). -/
def DWARFManager_GetInfosVariable (cus : List CU) (adr idx : Nat) :
    CRes VariableRec :=
  if adr ≠ 0 then
    match cusFindLocalVars adr cus with
    | some vs => varAtUnchecked vs idx
    | none => .nullR
  else globalVarsLookup idx cus

/-- Inner loop of `DWARFManager_GetGlobalVariableAdrFromName`
(lines 1740-1746): `strcmp` against a null stored name is undefined. -/
def varsAdrByName (nm : String) : List VariableRec → ScanOut
  | [] => .fall
  | v :: vs =>
    match v.name with
    | none => .oob
    | some s => if s = nm then .ret v.addr else varsAdrByName nm vs

/-- `DWARFManager_GetGlobalVariableAdrFromName` (lines 1734-1751): `some a`
is the returned address (`some 0` the not-found sentinel), `none` the
undefined `strcmp(NULL, ...)`. -/
def DWARFManager_GetGlobalVariableAdrFromName (cus : List CU) (nm : String) :
    Option Nat :=
  match cus with
  | [] => some 0
  | cu :: rest =>
    if cu.ptrVariables.length ≠ 0 then
      match varsAdrByName nm cu.ptrVariables with
      | .ret a => some a
      | .oob => none
      | .fall => DWARFManager_GetGlobalVariableAdrFromName rest nm
    else DWARFManager_GetGlobalVariableAdrFromName rest nm

/-- `DWARFManager_GetNumFullSourceFilename` (lines 2330-2333): `PtrCU[Index]`
with no bounds check — an out-of-range index is an out-of-bounds read. -/
def DWARFManager_GetNumFullSourceFilename (cus : List CU) (idx : Nat) :
    CRes String :=
  match cus.get? idx with
  | some cu => .val cu.fullFilename
  | none => .oob

/-- `DWARFManager_GetSrcNumLinesPtrFromIndex` (lines 2229-2239): the
used-lines variant reads `PtrCU[Index]` unchecked; the full-source variant
returns `NULL` without touching the unit table at all. -/
def DWARFManager_GetSrcNumLinesPtrFromIndex (cus : List CU) (idx : Nat)
    (used : Bool) : CRes (Option (List Nat)) :=
  if used then
    match cus.get? idx with
    | some cu => .val cu.usedNumLines
    | none => .oob
  else .nullR

/-! ## Source path resolution (DWARFManager_InitDMI, lines 509-589, and
DWARFManager_ConformSlachesBackslashes, lines 1399-1416)

The embedding follows the non-Windows (`#else`) branches.  File existence is
an external effect, passed in as a predicate on candidate paths. -/

/-- Non-Windows `DWARFManager_ConformSlachesBackslashes`: backslashes become
slashes. -/
def conformSlashes (s : String) : String :=
  String.mk (s.data.map (fun c => if c = '\\' then '/' else c))

/-- The search-path loop (lines 513-528, non-Windows): for each path in
order, build `path/filename` and `fopen` it; when the open FAILS
(`SrcFile == NULL`) the path overwrites the directory.  There is no break, so
the last path whose candidate does not open wins. -/
def searchPathsDirLoop (fileExists : String → Bool) (fn : String) :
    List String → Option String → Option String
  | [], dir => dir
  | p :: ps, dir =>
    if fileExists (p ++ "/" ++ fn) then searchPathsDirLoop fileExists fn ps dir
    else searchPathsDirLoop fileExists fn ps (some p)

/-- Directory resolution for a unit recording no directory (lines 510-536):
run the search-path loop, defaulting to `"."` when no path was recorded. -/
def resolveSourceDirectory (fileExists : String → Bool) (fn : String)
    (paths : List String) : String :=
  (searchPathsDirLoop fileExists fn paths none).getD "."

/-- Does `pat` start `l`? -/
def charsPrefix : List Char → List Char → Bool
  | [], _ => true
  | _ :: _, [] => false
  | a :: as, b :: bs => a = b && charsPrefix as bs

/-- Index of the first occurrence of `pat` in `l` (`strstr`). -/
def findSubstrIdx (pat : List Char) : List Char → Option Nat
  | [] => if pat.isEmpty then some 0 else none
  | c :: cs =>
    if charsPrefix pat (c :: cs) then some 0
    else (findSubstrIdx pat cs).map (· + 1)

/-- Greatest index `j < i` with `l[j] = '/'` (the backward scan
`while (*--Ptr1 != '/');`). -/
def lastSlashBefore (l : List Char) (i : Nat) : Option Nat :=
  ((List.range i).filter (fun j => l.getD j ' ' = '/')).getLast?

/-- One step of the `"/../"` collapse loop (lines 578-589, non-Windows):
locate `"/../"`, back up to the preceding slash, and splice the tail over the
collapsed component.  `none` means no occurrence (loop exits); a missing
preceding slash would scan before the buffer (undefined) and is modelled as
stopping. -/
def collapseStep (l : List Char) : Option (List Char) :=
  match findSubstrIdx ("/../".data) l with
  | none => none
  | some i =>
    match lastSlashBefore l i with
    | none => none
    | some j => some (l.take (j + 1) ++ l.drop (i + 4))

/-- The `"/../"` collapse loop, fueled (each step strictly shortens the
string in C). -/
def collapseParentDirs : Nat → List Char → List Char
  | 0, l => l
  | fuel + 1, l =>
    match collapseStep l with
    | none => l
    | some l2 => collapseParentDirs fuel l2

/-- Path clean-up applied to the full filename (lines 573-589): conform
slashes, then collapse `"/../"` components. -/
def cleanFullFilename (s : String) : String :=
  String.mk (collapseParentDirs s.data.length (conformSlashes s).data)

/-- The `"/cygdrive/"` rewrite for a recorded directory (lines 539-549):
drop the 9-character `"/cygdrive"` marker and, when the remainder looks like
`/x/...` with a lower-case drive letter, rewrite it to `x:/...`. -/
def cygdriveRewrite (d : List Char) : List Char :=
  if charsPrefix ("/cygdrive/".data) d then
    let d2 := d.drop 9
    if d2.getD 0 ' ' = '/' ∧ d2.getD 2 ' ' = '/' ∧
        'a' ≤ d2.getD 1 ' ' ∧ d2.getD 1 ' ' ≤ 'z' then
      (d2.set 0 (d2.getD 1 ' ')).set 1 ':'
    else d2
  else d

/-- Directory and full-filename resolution for one unit (lines 503-589,
non-Windows): directory from the search paths when none was recorded (else
the cygdrive rewrite), filename slash-conformed, a filename already carrying
a drive (second character `':'`) used verbatim, otherwise
`directory/filename`, then the clean-up pass. -/
def resolveUnitPaths (fileExists : String → Bool) (fnRaw : String)
    (dirOpt : Option String) (paths : List String) : String × String :=
  let dir :=
    match dirOpt with
    | none => resolveSourceDirectory fileExists fnRaw paths
    | some d => String.mk (cygdriveRewrite d.data)
  let fn := conformSlashes fnRaw
  let full :=
    if fn.data.getD 1 (Char.ofNat 0) = ':' then fn else dir ++ "/" ++ fn
  (dir, cleanFullFilename full)

/-! ## Per-unit build (DWARFManager_InitDMI, lines 591-1394)

The session side (libdwarf iteration) is external; the embedding takes the
decoded inputs of one compilation unit — root attributes, the line-number
table, the subprogram headers — and mirrors how InitDMI populates the
`CUStruct`. -/

/-- Source-file status decision (lines 591-682): no `stat` information →
`NoFileInfo`; a source strictly newer than the executable → `OutdatedFile`;
otherwise the open/read branch is taken (status `NoFile` when it is not).
(The non-Windows port inverts the `fopen` test, reading through a null
`FILE*`; `openOk` models whichever branch reaches the read.) -/
def sourceFileStatus (statOk : Bool) (srcMtime exeMtime : Int)
    (openOk : Bool) : DWARFstatus :=
  if statOk then
    if srcMtime ≤ exeMtime then
      if openOk then .ok else .noFile
    else .outdatedFile
  else .noFileInfo

/-- Decoded subprogram header (DW_AT_low_pc sets both `StartPC` and `LowPC`,
line 1045-1046). -/
structure SubProgSrc where
  lowPC : Nat := 0
  highPC : Nat := 0
  declLine : Nat := 0
  name : Option String := none
  locals : List (Nat × List AttrVal) := []
  deriving Repr

/-- Partition of the unit's line table for one subprogram (lines 1114-1125):
records with `StartPC` in the INCLUSIVE range `[low, high]`, in order, with
a zeroed tag; nothing when the used-lines table was not allocated. -/
def partitionSubProgLines (lowPC highPC : Nat) (used : List (Nat × Nat)) :
    List LineRec :=
  (used.filter (fun r => lowPC ≤ r.1 ∧ r.1 ≤ highPC)).map
    (fun r => { tag := 0, startPC := r.1, numLineSrc := r.2 })

/-- Build one subprogram record (lines 1026-1241). -/
def buildSubProg (used : List (Nat × Nat)) (d : SubProgSrc) : SubProg :=
  { tag := DW_TAG_subprogram
    numLineSrc := d.declLine
    startPC := d.lowPC
    lowPC := d.lowPC
    highPC := d.highPC
    name := d.name
    linesSrc := partitionSubProgLines d.lowPC d.highPC used
    ptrVariables := buildLocalVariables d.locals }

/-- `PtrLinesLoadSrc` allocation (lines 1254-1348): when source lines were
loaded, one string per line; otherwise, when the last subprogram carries line
records, a table of null entries sized by its last record's line number;
otherwise the pointer stays null. -/
def buildCULinesLoad (loadedText : List String) (sps : List SubProg) :
    Option (List (Option String)) :=
  if loadedText.length ≠ 0 then some (loadedText.map some)
  else
    match sps.getLast? with
    | some sp =>
      if sp.linesSrc ≠ [] then
        some (List.replicate ((sp.linesSrc.getLastD {}).numLineSrc) none)
      else none
    | none => none

/-- The final per-unit pass (lines 1350-1374): when the (never-written, hence
zero) `LastNumUsedLinesSrc` does not exceed the loaded line count and both
the used-lines table and the line-pointer table exist, fill
`PtrUsedNumLines`, and, when the root entry supplied no low address and a
zero or all-ones high address, take the unit's PC range from the first and
last used-line records. -/
def finishCU (cu : CU) : CU :=
  if cu.lastNumUsedLinesSrc ≤ cu.nbLinesLoadSrc then
    if cu.usedLinesSrc ≠ [] then
      if cu.linesLoadSrc.isSome then
        let cu := { cu with
          usedNumLines := some (cu.usedLinesSrc.map (fun r => r.2 - 1)) }
        if cu.lowPC = 0 ∧ (cu.highPC = 0 ∨ cu.highPC = sizetAllOnes) then
          { cu with lowPC := (cu.usedLinesSrc.headD (0, 0)).1,
                    highPC := (cu.usedLinesSrc.getLastD (0, 0)).1 }
        else cu
      else cu
    else cu
  else cu

/-- Build one compilation unit from its decoded inputs (DWARFManager_InitDMI
body for one `dwarf_next_cu_header_b` iteration).  `srcText` is the loaded
source split into lines (carriage returns stripped, trailing newline
ensured — the byte-level processing of lines 611-657 is abstracted to its
resulting line list); it is read only when the status checks pass.  The
used-lines table is captured only when the status is still OK (line 691). -/
def buildCU (statOk : Bool) (srcMtime exeMtime : Int) (openOk : Bool)
    (srcText : List String) (lineTable : List (Nat × Nat))
    (lowPC highPC : Nat) (sps : List SubProgSrc)
    (globals : List (List AttrVal)) : CU :=
  let st := sourceFileStatus statOk srcMtime exeMtime openOk
  let loadedText := if st = .ok then srcText else []
  let used := if st = .ok then lineTable else []
  let subProgs := sps.map (buildSubProg used)
  finishCU
    { tag := DW_TAG_compile_unit
      lowPC := lowPC
      highPC := highPC
      nbLinesLoadSrc := loadedText.length
      linesLoadSrc := buildCULinesLoad loadedText subProgs
      subProgs := subProgs
      ptrVariables := buildGlobalVariables globals
      usedLinesSrc := used
      lastNumUsedLinesSrc := 0
      status := st }

/-! ## Lifecycle (Init / Reset / Close, lines 211-373) -/

/-- `DW_DLV_OK` from libdwarf. -/
def DW_DLV_OK : Nat := 0

/-- `DW_DLV_NO_ENTRY` from libdwarf (−1, stored in the `uint32_t`
`LibDwarf`). -/
def DW_DLV_NO_ENTRY : Nat := 2 ^ 32 - 1

/-- The process-wide mutable state of the manager (the globals at lines
176-184): `nbCU` is the `uint32_t` unit counter, `cus = none` models a freed
or null `PtrCU`. -/
structure DWARFState where
  libDwarf : Nat := DW_DLV_NO_ENTRY
  nbCU : Nat := 0
  cus : Option (List CU) := none
  searchPaths : List String := []
  nbSearchPaths : Nat := 0
  deriving DecidableEq, Repr

/-- The teardown counter of `DWARFManager_CloseDMI` (line 308):
`while (NbCU--)` runs `NbCU` times and exits with one extra post-decrement,
wrapping the `uint32_t` counter from 0 to `2 ^ 32 - 1`. -/
def closeDMILoop : Nat → Nat
  | 0 => 2 ^ 32 - 1
  | n + 1 => closeDMILoop n

/-- `DWARFManager_CloseDMI` (lines 305-373): free every owned structure
(model: drop the unit list); the counter is left wrapped. -/
def DWARFManager_CloseDMI (s : DWARFState) : DWARFState :=
  { s with nbCU := closeDMILoop s.nbCU, cus := none }

/-- `DWARFManager_ElfClose` (lines 281-301); `finishOk` stands for the
external `dwarf_finish` call succeeding. -/
def DWARFManager_ElfClose (finishOk : Bool) (s : DWARFState) :
    Bool × DWARFState :=
  if s.libDwarf = DW_DLV_OK then
    let s2 := DWARFManager_CloseDMI s
    if finishOk then (true, { s2 with libDwarf := DW_DLV_NO_ENTRY })
    else (false, s2)
  else (true, s)

/-- `DWARFManager_SourceFileSearchPathsReset` (lines 220-224): drop the
search-path references (they are not freed, only unreferenced). -/
def DWARFManager_SourceFileSearchPathsReset (s : DWARFState) : DWARFState :=
  { s with searchPaths := [], nbSearchPaths := 0 }

/-- `DWARFManager_Reset` (lines 252-256). -/
def DWARFManager_Reset (finishOk : Bool) (s : DWARFState) :
    Bool × DWARFState :=
  DWARFManager_ElfClose finishOk (DWARFManager_SourceFileSearchPathsReset s)

/-- `DWARFManager_GetNbSources` (lines 2323-2326): the raw `uint32_t`
counter. -/
def DWARFManager_GetNbSources (s : DWARFState) : Nat := s.nbCU

/-! ## Concrete models used by the claims -/

/-- The synthetic unit of the round-trip example: a subprogram spanning
`[0x1000, 0x1030)` with declaration line 10 and line table
`[(0x1000,10), (0x1010,12), (0x1020,15)]`, with a fresh, readable source. -/
def c1cu : CU :=
  buildCU true 1 2 true ["int f(void);", "return;"]
    [(0x1000, 10), (0x1010, 12), (0x1020, 15)]
    0x1000 0x1030
    [{ lowPC := 0x1000, highPC := 0x1030, declLine := 10, name := some "f" }]
    []

/-- One-unit model around `c1cu`. -/
def c1model : List CU := [c1cu]

/-- A subprogram-child variable entry carrying a location but no name
(`DW_OP_fbreg` block `[0x91, 0x7c]`, offset −4). -/
def c2localVar : VariableRec :=
  parseLocalVariable DW_TAG_variable [AttrVal.location [0x91, 0x7c]]

/-- A unit whose single subprogram has one nameless local variable. -/
def c2cu : CU :=
  buildCU true 1 2 true ["int f(void);", "return;"]
    [(0x1000, 10)]
    0x1000 0x1030
    [{ lowPC := 0x1000, highPC := 0x1030, declLine := 10, name := some "f",
       locals := [(DW_TAG_variable, [AttrVal.location [0x91, 0x7c]])] }]
    []

/-- One-unit model around `c2cu`. -/
def c2model : List CU := [c2cu]

/-- File-existence oracle of the path-resolution example: exactly
`/b/x.c` exists. -/
def c3exists (s : String) : Bool := s = "/b/x.c"

/-- The staleness example: the same unit as `c1cu` but with a source
modification time (5) strictly after the executable's (2). -/
def c5cu : CU :=
  buildCU true 5 2 true ["int f(void);", "return;"]
    [(0x1000, 10), (0x1010, 12), (0x1020, 15)]
    0x1000 0x1030
    [{ lowPC := 0x1000, highPC := 0x1030, declLine := 10, name := some "f" }]
    []

/-- One-unit model around `c5cu`. -/
def c5model : List CU := [c5cu]

/-- A loaded manager state: one unit, library session open. -/
def c7loaded : DWARFState :=
  { libDwarf := DW_DLV_OK, nbCU := 1, cus := some [c1cu],
    searchPaths := ["/a"], nbSearchPaths := 1 }

/-! ## Helper lemmas -/

/-- The teardown loop always leaves the wrapped `uint32_t` counter. -/
theorem closeDMILoop_eq (n : Nat) : closeDMILoop n = 2 ^ 32 - 1 := by
  induction n with
  | zero => rfl
  | succ k ih => simpa [closeDMILoop] using ih

/-- Prepending the empty string is the identity. -/
theorem empty_string_append (s : String) : "" ++ s = s := rfl

/-- The global-variable accept step preserves the presence of a name and a
non-zero address. -/
theorem addGlobalVariable_invariant (vars : List VariableRec)
    (v w : VariableRec)
    (h : ∀ u ∈ vars, u.name.isSome ∧ u.addr ≠ 0)
    (hw : w ∈ addGlobalVariable vars v) : w.name.isSome ∧ w.addr ≠ 0 := by
  unfold addGlobalVariable at hw
  cases hv : v.name with
  | none => rw [hv] at hw; exact h w hw
  | some s =>
    rw [hv] at hw
    by_cases ha : v.addr ≠ 0
    · rw [if_pos ha] at hw
      rcases List.mem_append.mp hw with h1 | h1
      · exact h w h1
      · rcases List.mem_singleton.mp h1 with rfl
        exact ⟨by rw [hv]; rfl, ha⟩
    · rw [if_neg ha] at hw; exact h w hw

/-- Fold form of the invariant over any entry list and accumulator. -/
theorem buildGlobalVariables_aux (es : List (List AttrVal))
    (acc : List VariableRec)
    (hacc : ∀ u ∈ acc, u.name.isSome ∧ u.addr ≠ 0) :
    ∀ w ∈ es.foldl
        (fun vars e => addGlobalVariable vars (parseGlobalVariable e)) acc,
      w.name.isSome ∧ w.addr ≠ 0 := by
  induction es generalizing acc with
  | nil => simpa using hacc
  | cons e es ih =>
    intro w hw
    exact ih (addGlobalVariable acc (parseGlobalVariable e))
      (fun u hu => addGlobalVariable_invariant acc (parseGlobalVariable e) u hacc hu)
      w hw

/-- `getLast?` of a cons, phrased as the match used below. -/
theorem getLast?_cons_match {α : Type} (a : α) (l : List α) :
    (a :: l).getLast? =
      match l.getLast? with
      | some x => some x
      | none => some a := by
  cases l with
  | nil => rfl
  | cons b bs =>
    rw [List.getLast?_cons_cons]
    cases hl : (b :: bs).getLast? with
    | none => exact absurd (List.getLast?_eq_none_iff.mp hl) (by simp)
    | some x => rfl

/-- Characterization of the directory-search loop: the last search path whose
candidate file does not exist wins, else the incoming accumulator. -/
theorem searchPathsDirLoop_eq (fe : String → Bool) (fn : String) :
    ∀ (paths : List String) (dir : Option String),
      searchPathsDirLoop fe fn paths dir =
        match (paths.filter (fun p => !fe (p ++ "/" ++ fn))).getLast? with
        | some x => some x
        | none => dir := by
  intro paths
  induction paths with
  | nil => intro dir; rfl
  | cons p ps ih =>
    intro dir
    by_cases hfe : fe (p ++ "/" ++ fn)
    · have hstep : searchPathsDirLoop fe fn (p :: ps) dir =
          searchPathsDirLoop fe fn ps dir := by
        simp [searchPathsDirLoop, hfe]
      have hfil : (p :: ps).filter (fun q => !fe (q ++ "/" ++ fn)) =
          ps.filter (fun q => !fe (q ++ "/" ++ fn)) := by
        simp [List.filter_cons, hfe]
      rw [hstep, hfil, ih]
    · have hstep : searchPathsDirLoop fe fn (p :: ps) dir =
          searchPathsDirLoop fe fn ps (some p) := by
        simp [searchPathsDirLoop, hfe]
      have hfil : (p :: ps).filter (fun q => !fe (q ++ "/" ++ fn)) =
          p :: ps.filter (fun q => !fe (q ++ "/" ++ fn)) := by
        simp [List.filter_cons, hfe]
      rw [hstep, ih (some p), hfil, getLast?_cons_match]
      cases hlast : (ps.filter (fun q => !fe (q ++ "/" ++ fn))).getLast? <;> rfl

/-! ## Claim C1 -/

/-- C1 (counterexample): in the round-trip example — subprogram
`[0x1000, 0x1030)`, line table `[(0x1000,10), (0x1010,12), (0x1020,15)]` —
`DWARFManager_GetNumLineFromAdr` at address `0x1025` with tag 0 returns the
not-found sentinel 0, not line 15: when the target exceeds every recorded
address the scan loop falls through without returning, and the unit-level
used-lines check matches exact addresses only. -/
theorem C1_counterexample :
    DWARFManager_GetNumLineFromAdr c1model 0x1025 0 = some 0 ∧
    DWARFManager_GetNumLineFromAdr c1model 0x1025 0 ≠ some 15 := by
  decide

/-- C1 (amended): for every address in the synthetic subprogram's range, the
tag-0 lookup returns the line of the record with the greatest `StartPC` not
exceeding the address as long as the address does not exceed the last
recorded address (`0x1000` yields 10 — the exact-start short-circuit returns
the declaration line, here also 10); an address beyond the last record
(`0x1021`-`0x102f`) yields 0, not the last record's line. -/
theorem C1_amended (adr : Nat) (h1 : 0x1000 ≤ adr) (h2 : adr < 0x1030) :
    DWARFManager_GetNumLineFromAdr c1model adr 0 =
      some (if adr < 0x1010 then 10 else if adr < 0x1020 then 12
            else if adr = 0x1020 then 15 else 0) := by
  interval_cases adr <;> decide

/-- C1 amended, instantiated at address 0x1025. -/
theorem C1_amended_witness :
    0x1000 ≤ (0x1025 : Nat) ∧ (0x1025 : Nat) < 0x1030 ∧
    DWARFManager_GetNumLineFromAdr c1model 0x1025 0 =
      some (if (0x1025 : Nat) < 0x1010 then 10
            else if (0x1025 : Nat) < 0x1020 then 12
            else if (0x1025 : Nat) = 0x1020 then 15 else 0) :=
  ⟨by decide, by decide, C1_amended 0x1025 (by decide) (by decide)⟩

/-! ## Claim C2 -/

/-- C2 (counterexample): a subprogram child variable with a location block
but no name attribute is kept in the built model — querying the local
variables of the enclosing subprogram returns a record whose name is null.
The no-name/zero-address discard applies only to unit-scope variables. -/
theorem C2_counterexample :
    DWARFManager_GetInfosVariable c2model 0x1005 1 = CRes.val c2localVar ∧
    c2localVar.name = none := by
  decide

/-- C2 (amended): every unit-scope (global) variable surviving the build has
a name and a non-zero address, but subprogram-local variables and parameters
are appended unconditionally — a child entry with tag `DW_TAG_variable` or
`DW_TAG_formal_parameter` always lands in the local list, name or no name. -/
theorem C2_amended :
    (∀ (es : List (List AttrVal)) (v : VariableRec),
        v ∈ buildGlobalVariables es → v.name.isSome ∧ v.addr ≠ 0) ∧
    (∀ (ls : List (Nat × List AttrVal)) (tg : Nat) (attrs : List AttrVal),
        tg = DW_TAG_variable ∨ tg = DW_TAG_formal_parameter →
        parseLocalVariable tg attrs ∈ buildLocalVariables (ls ++ [(tg, attrs)])) := by
  constructor
  · intro es v hv
    exact buildGlobalVariables_aux es [] (by simp) v hv
  · intro ls tg attrs h
    unfold buildLocalVariables
    rw [List.foldl_append]
    simp only [List.foldl_cons, List.foldl_nil]
    rw [if_pos h]
    exact List.mem_append_right _ (List.mem_singleton.mpr rfl)

/-- C2 amended, instantiated: a named global with a non-zero address keeps
both, and the nameless local of the counterexample is indeed in the built
local list. -/
theorem C2_amended_witness :
    ((parseGlobalVariable
        [AttrVal.location [0x03, 0x00, 0x19, 0x20, 0x40],
         AttrVal.nameAttr "g"]).name.isSome ∧
      (parseGlobalVariable
        [AttrVal.location [0x03, 0x00, 0x19, 0x20, 0x40],
         AttrVal.nameAttr "g"]).addr ≠ 0) ∧
    c2localVar ∈
      buildLocalVariables [(DW_TAG_variable, [AttrVal.location [0x91, 0x7c]])] :=
  ⟨C2_amended.1
      [[AttrVal.location [0x03, 0x00, 0x19, 0x20, 0x40], AttrVal.nameAttr "g"]]
      _ (by decide),
    C2_amended.2 [] DW_TAG_variable [AttrVal.location [0x91, 0x7c]]
      (Or.inl rfl)⟩

/-! ## Claim C3 -/

/-- C3 (counterexample): with search paths `["/a", "/b"]`, no recorded
directory, filename `"x.c"`, and exactly `/b/x.c` existing, the resolved
directory is `/a` and the full filename `/a/x.c` — not `/b` / `/b/x.c`: the
non-Windows search loop takes a path when `fopen` FAILS, and without a break
the last failing path wins. -/
theorem C3_counterexample :
    resolveUnitPaths c3exists "x.c" none ["/a", "/b"] = ("/a", "/a/x.c") ∧
    resolveUnitPaths c3exists "x.c" none ["/a", "/b"] ≠ ("/b", "/b/x.c") := by
  decide

/-- C3 (amended): for a unit recording no directory, the resolved directory
is the LAST search path whose candidate file does not exist (the open-failure
check is inverted relative to the claim), with the current directory `"."`
used only when every search path's candidate exists (or there are no search
paths); in the `["/a","/b"]` / `"x.c"` example with only `/b/x.c` existing,
the result is directory `/a` and full filename `/a/x.c`. -/
theorem C3_amended :
    (∀ (fe : String → Bool) (fn : String) (paths : List String),
        resolveSourceDirectory fe fn paths =
          ((paths.filter (fun p => !fe (p ++ "/" ++ fn))).getLast?).getD ".") ∧
    resolveUnitPaths c3exists "x.c" none ["/a", "/b"] = ("/a", "/a/x.c") := by
  constructor
  · intro fe fn paths
    unfold resolveSourceDirectory
    rw [searchPathsDirLoop_eq]
    cases (paths.filter (fun p => !fe (p ++ "/" ++ fn))).getLast? <;> rfl
  · decide

/-! ## Claim C4 -/

/-- Total number of unit-scope variables across all units. -/
def sumGlobals (cus : List CU) : Nat :=
  (cus.map (fun cu => cu.ptrVariables.length)).sum

/-- C4 (counterexample): the index-keyed unit getter
`DWARFManager_GetNumFullSourceFilename` at index 1 of a one-unit model, and
the local branch of `DWARFManager_GetInfosVariable` at index 2 of a
one-local-variable subprogram, perform out-of-bounds accesses — they do not
return a defined sentinel. -/
theorem C4_counterexample :
    DWARFManager_GetNumFullSourceFilename c1model 1 = CRes.oob ∧
    DWARFManager_GetInfosVariable c2model 0x1005 2 = CRes.oob ∧
    CRes.oob ≠ (CRes.nullR : CRes String) := by
  decide

/-- Address-miss: the symbol-name lookup falls through to `NULL`. -/
theorem symbolname_miss (adr : Nat) :
    ∀ cus : List CU, (∀ cu ∈ cus, ¬(cu.lowPC ≤ adr ∧ adr < cu.highPC)) →
      DWARFManager_GetSymbolnameFromAdr cus adr = none := by
  intro cus
  induction cus with
  | nil => intro; rfl
  | cons cu rest ih =>
    intro h
    unfold DWARFManager_GetSymbolnameFromAdr
    rw [if_neg (h cu (List.mem_cons_self cu rest))]
    exact ih (fun c hc => h c (List.mem_cons_of_mem cu hc))

/-- Address-miss: the function-name lookup falls through to `NULL`. -/
theorem functionName_miss (adr : Nat) :
    ∀ cus : List CU, (∀ cu ∈ cus, ¬(cu.lowPC ≤ adr ∧ adr < cu.highPC)) →
      DWARFManager_GetFunctionName cus adr = none := by
  intro cus
  induction cus with
  | nil => intro; rfl
  | cons cu rest ih =>
    intro h
    unfold DWARFManager_GetFunctionName
    rw [if_neg (h cu (List.mem_cons_self cu rest))]
    exact ih (fun c hc => h c (List.mem_cons_of_mem cu hc))

/-- Address-miss: the local-variable finder falls through to `NULL`. -/
theorem cusFindLocalVars_miss (adr : Nat) :
    ∀ cus : List CU, (∀ cu ∈ cus, ¬(cu.lowPC ≤ adr ∧ adr < cu.highPC)) →
      cusFindLocalVars adr cus = none := by
  intro cus
  induction cus with
  | nil => intro; rfl
  | cons cu rest ih =>
    intro h
    unfold cusFindLocalVars
    rw [if_neg (h cu (List.mem_cons_self cu rest))]
    exact ih (fun c hc => h c (List.mem_cons_of_mem cu hc))

/-- Index-miss on the global branch: an index above the total count walks off
the unit list and returns `NULL`. -/
theorem globalVarsLookup_gt :
    ∀ (cus : List CU) (idx : Nat), sumGlobals cus < idx →
      globalVarsLookup idx cus = CRes.nullR := by
  intro cus
  induction cus with
  | nil => intro idx _; rfl
  | cons cu rest ih =>
    intro idx h
    have hsum : cu.ptrVariables.length + sumGlobals rest < idx := by
      simpa [sumGlobals] using h
    unfold globalVarsLookup
    by_cases hlen : cu.ptrVariables.length ≠ 0
    · rw [if_pos hlen, if_neg (by omega)]
      exact ih (idx - cu.ptrVariables.length) (by omega)
    · rw [if_neg hlen]
      exact ih idx (by omega)

/-- Name-miss inside one unit: all names present and different from the probe
makes the scan fall through. -/
theorem varsAdrByName_fall (nm : String) :
    ∀ vs : List VariableRec,
      (∀ v ∈ vs, v.name ≠ none ∧ v.name ≠ some nm) →
      varsAdrByName nm vs = ScanOut.fall := by
  intro vs
  induction vs with
  | nil => intro; rfl
  | cons v rest ih =>
    intro h
    have hv := h v (List.mem_cons_self v rest)
    unfold varsAdrByName
    cases hn : v.name with
    | none => exact absurd hn hv.1
    | some s =>
      have hs : s ≠ nm := by
        intro hEq; exact hv.2 (by rw [hn, hEq])
      show (if s = nm then ScanOut.ret v.addr else varsAdrByName nm rest) =
        ScanOut.fall
      rw [if_neg hs]
      exact ih (fun u hu => h u (List.mem_cons_of_mem v hu))

/-- Name-miss across units: returns the address sentinel 0. -/
theorem adrFromName_miss (nm : String) :
    ∀ cus : List CU,
      (∀ cu ∈ cus, ∀ v ∈ cu.ptrVariables, v.name ≠ none ∧ v.name ≠ some nm) →
      DWARFManager_GetGlobalVariableAdrFromName cus nm = some 0 := by
  intro cus
  induction cus with
  | nil => intro; rfl
  | cons cu rest ih =>
    intro h
    unfold DWARFManager_GetGlobalVariableAdrFromName
    have hrest := ih (fun c hc => h c (List.mem_cons_of_mem cu hc))
    by_cases hlen : cu.ptrVariables.length ≠ 0
    · rw [if_pos hlen,
        varsAdrByName_fall nm cu.ptrVariables (h cu (List.mem_cons_self cu rest))]
      exact hrest
    · rw [if_neg hlen]
      exact hrest

/-- C4 (amended): query misses keyed by address or by name return defined
sentinels (`NULL`/`0`), and so does the global branch of
`DWARFManager_GetInfosVariable` for an index above the total variable count —
but the index-keyed unit getters perform no bounds check: an out-of-range
index there is an out-of-bounds access, not a sentinel. -/
theorem C4_amended (cus : List CU) (adr idx : Nat) (nm : String) :
    ((∀ cu ∈ cus, ¬(cu.lowPC ≤ adr ∧ adr < cu.highPC)) →
        DWARFManager_GetSymbolnameFromAdr cus adr = none ∧
        DWARFManager_GetFunctionName cus adr = none ∧
        (adr ≠ 0 → DWARFManager_GetInfosVariable cus adr idx = CRes.nullR)) ∧
    (sumGlobals cus < idx →
        DWARFManager_GetInfosVariable cus 0 idx = CRes.nullR) ∧
    ((∀ cu ∈ cus, ∀ v ∈ cu.ptrVariables, v.name ≠ none ∧ v.name ≠ some nm) →
        DWARFManager_GetGlobalVariableAdrFromName cus nm = some 0) ∧
    (cus.length ≤ idx →
        DWARFManager_GetNumFullSourceFilename cus idx = CRes.oob) := by
  refine ⟨fun h => ⟨symbolname_miss adr cus h, functionName_miss adr cus h,
      fun ha => ?_⟩, fun h => ?_, adrFromName_miss nm cus, fun h => ?_⟩
  · unfold DWARFManager_GetInfosVariable
    rw [if_pos ha, cusFindLocalVars_miss adr cus h]
  · unfold DWARFManager_GetInfosVariable
    rw [if_neg (by simp)]
    exact globalVarsLookup_gt cus idx h
  · unfold DWARFManager_GetNumFullSourceFilename
    rw [List.get?_eq_none.mpr h]

/-- C4 amended, instantiated on the one-unit model: miss address `0x5000`,
miss index 5, miss name `"nosuch"`, out-of-range unit index 5. -/
theorem C4_amended_witness :
    DWARFManager_GetSymbolnameFromAdr c1model 0x5000 = none ∧
    DWARFManager_GetFunctionName c1model 0x5000 = none ∧
    DWARFManager_GetInfosVariable c1model 0x5000 5 = CRes.nullR ∧
    DWARFManager_GetInfosVariable c1model 0 5 = CRes.nullR ∧
    DWARFManager_GetGlobalVariableAdrFromName c1model "nosuch" = some 0 ∧
    DWARFManager_GetNumFullSourceFilename c1model 5 = CRes.oob := by
  have h := C4_amended c1model 0x5000 5 "nosuch"
  have h1 := h.1 (by decide)
  exact ⟨h1.1, h1.2.1, h1.2.2 (by decide), h.2.1 (by decide),
    h.2.2.1 (by decide), h.2.2.2 (by decide)⟩

/-! ## Claim C5 -/

/-- The line-pointer table is null when no text was loaded and every built
subprogram carries an empty line partition. -/
theorem buildCULinesLoad_empty (sps : List SubProgSrc) :
    buildCULinesLoad [] (sps.map (buildSubProg [])) = none := by
  unfold buildCULinesLoad
  rw [if_neg (by simp)]
  cases hlast : (sps.map (buildSubProg [])).getLast? with
  | none => rfl
  | some sp =>
    have hmem := List.mem_of_getLast?_eq_some hlast
    rcases List.mem_map.mp hmem with ⟨d, _, rfl⟩
    simp [buildSubProg, partitionSubProgLines]

/-- A unit whose source is strictly newer than the executable builds to the
`OutdatedFile` record: no text, no used-lines table, empty subprogram line
partitions. -/
theorem buildCU_outdated (srcMtime exeMtime : Int) (openOk : Bool)
    (srcText : List String) (lineTable : List (Nat × Nat))
    (lowPC highPC : Nat) (sps : List SubProgSrc)
    (globals : List (List AttrVal)) (h : exeMtime < srcMtime) :
    buildCU true srcMtime exeMtime openOk srcText lineTable lowPC highPC sps
        globals =
      { tag := DW_TAG_compile_unit, lowPC := lowPC, highPC := highPC,
        nbLinesLoadSrc := 0, linesLoadSrc := none,
        subProgs := sps.map (buildSubProg []),
        ptrVariables := buildGlobalVariables globals,
        usedLinesSrc := [], lastNumUsedLinesSrc := 0,
        status := .outdatedFile } := by
  have hst : sourceFileStatus true srcMtime exeMtime openOk = .outdatedFile := by
    unfold sourceFileStatus
    rw [if_pos rfl, if_neg (not_le.mpr h)]
  unfold buildCU
  rw [hst]
  simp only [reduceCtorEq, if_false, List.length_nil]
  rw [buildCULinesLoad_empty]
  unfold finishCU
  simp

/-- C5 (counterexample): the outdated unit has status `OutdatedFile` and an
empty line cache, but the line-number lookup does NOT still succeed on it:
at address `0x1010`, whose line-table row is 12, it returns the 0 sentinel,
because the used-lines table is only captured when the status is OK. -/
theorem C5_counterexample :
    c5cu.status = DWARFstatus.outdatedFile ∧
    c5cu.linesLoadSrc = none ∧
    DWARFManager_GetNumLineFromAdr c5model 0x1010 0 = some 0 ∧
    DWARFManager_GetNumLineFromAdr c5model 0x1010 0 ≠ some 12 := by
  decide

/-- C5 (amended): a source strictly newer than the executable yields unit
status `OutdatedFile`, an empty source-line cache, no used-lines table and
empty per-subprogram line partitions; function-name and symbol-name lookups
on the populated model still succeed, and the line-number lookup succeeds
only at a subprogram's start address (returning its declaration line) — at
any other address it returns the 0 sentinel (shown in the counterexample). -/
theorem C5_amended (srcMtime exeMtime : Int) (openOk : Bool)
    (srcText : List String) (lineTable : List (Nat × Nat))
    (lowPC highPC : Nat) (sps : List SubProgSrc)
    (globals : List (List AttrVal)) (h : exeMtime < srcMtime) :
    ((buildCU true srcMtime exeMtime openOk srcText lineTable lowPC highPC
        sps globals).status = .outdatedFile ∧
      (buildCU true srcMtime exeMtime openOk srcText lineTable lowPC highPC
        sps globals).usedLinesSrc = [] ∧
      (buildCU true srcMtime exeMtime openOk srcText lineTable lowPC highPC
        sps globals).nbLinesLoadSrc = 0 ∧
      (buildCU true srcMtime exeMtime openOk srcText lineTable lowPC highPC
        sps globals).linesLoadSrc = none ∧
      (∀ sp ∈ (buildCU true srcMtime exeMtime openOk srcText lineTable lowPC
          highPC sps globals).subProgs, sp.linesSrc = [])) ∧
    DWARFManager_GetFunctionName c5model 0x1005 = some "f" ∧
    DWARFManager_GetSymbolnameFromAdr c5model 0x1000 = some "f" ∧
    DWARFManager_GetNumLineFromAdr c5model 0x1000 0 = some 10 := by
  rw [buildCU_outdated srcMtime exeMtime openOk srcText lineTable lowPC highPC
    sps globals h]
  refine ⟨⟨rfl, rfl, rfl, rfl, fun sp hsp => ?_⟩, by decide, by decide,
    by decide⟩
  rcases List.mem_map.mp hsp with ⟨d, _, rfl⟩
  simp [buildSubProg, partitionSubProgLines]

/-- C5 amended, instantiated at the outdated example unit. -/
theorem C5_amended_witness :
    (buildCU true 5 2 true ["int f(void);", "return;"]
        [(0x1000, 10), (0x1010, 12), (0x1020, 15)] 0x1000 0x1030
        [{ lowPC := 0x1000, highPC := 0x1030, declLine := 10,
           name := some "f" }] []).status = DWARFstatus.outdatedFile ∧
    DWARFManager_GetFunctionName c5model 0x1005 = some "f" ∧
    DWARFManager_GetSymbolnameFromAdr c5model 0x1000 = some "f" ∧
    DWARFManager_GetNumLineFromAdr c5model 0x1000 0 = some 10 := by
  have h := C5_amended 5 2 true ["int f(void);", "return;"]
    [(0x1000, 10), (0x1010, 12), (0x1020, 15)] 0x1000 0x1030
    [{ lowPC := 0x1000, highPC := 0x1030, declLine := 10, name := some "f" }]
    [] (by decide)
  exact ⟨h.1.1, h.2⟩

/-! ## Claim C7 -/

/-- C7 (counterexample): after a load of one unit, `DWARFManager_Reset`
returns success, but the model is not observed as empty: the teardown loop's
post-decrement leaves the `uint32_t` unit counter at `2 ^ 32 - 1`, which is
what `DWARFManager_GetNbSources` then reports — not 0. -/
theorem C7_counterexample :
    (DWARFManager_Reset true c7loaded).1 = true ∧
    DWARFManager_GetNbSources (DWARFManager_Reset true c7loaded).2 =
      4294967295 ∧
    (4294967295 : Nat) ≠ 0 := by
  decide

/-- C7 (amended): from any loaded state (open libdwarf session), calling
reset twice in a row is safe and returns the success flag both times (the
external `dwarf_finish` succeeding): the first call frees the owned
structures and clears the search-path references, and the second call is a
no-op returning success — but the unit counter is left at `2 ^ 32 - 1` by
the teardown loop, not 0; it is re-zeroed only by the next load. -/
theorem C7_amended (s : DWARFState) (h : s.libDwarf = DW_DLV_OK) :
    (DWARFManager_Reset true s).1 = true ∧
    (DWARFManager_Reset true s).2.nbCU = 2 ^ 32 - 1 ∧
    (DWARFManager_Reset true s).2.cus = none ∧
    (DWARFManager_Reset true s).2.searchPaths = [] ∧
    DWARFManager_Reset true (DWARFManager_Reset true s).2 =
      (true, (DWARFManager_Reset true s).2) := by
  unfold DWARFManager_Reset DWARFManager_ElfClose
    DWARFManager_SourceFileSearchPathsReset DWARFManager_CloseDMI
  simp [h, DW_DLV_OK, DW_DLV_NO_ENTRY, closeDMILoop_eq]

/-- C7 amended, instantiated at the loaded one-unit state. -/
theorem C7_amended_witness :
    (DWARFManager_Reset true c7loaded).1 = true ∧
    (DWARFManager_Reset true c7loaded).2.nbCU = 2 ^ 32 - 1 ∧
    (DWARFManager_Reset true c7loaded).2.cus = none ∧
    (DWARFManager_Reset true c7loaded).2.searchPaths = [] ∧
    DWARFManager_Reset true (DWARFManager_Reset true c7loaded).2 =
      (true, (DWARFManager_Reset true c7loaded).2) :=
  C7_amended c7loaded rfl

/-! ## Claim C6 -/

set_option maxHeartbeats 2000000 in
/-- C6 (confirmed): resolving a variable whose type-offset chain goes through
a typedef onto a struct or union — whatever the struct/union's stored name
(absent for an anonymous one, or any raw name), whatever the variable's
location operation, byte size, encoding or member list — renders exactly the
typedef's name: the typedef stage records the typedef bit and appends its
name once, and the struct/union stage skips its own name because the bit is
set.  The second conjunct runs a chain through two typedefs: the first
typedef's name wins and still appears exactly once. -/
theorem C6_typedef_suppression (nm nm2 : String) (sn vnm : Option String)
    (tg op0 bs enc : Nat) (ms : List MemberRec)
    (htg : tg = DW_TAG_structure_type ∨ tg = DW_TAG_union_type) :
    (DWARFManager_InitInfosVariable
        [{ tag := DW_TAG_typedef, offset := 1, typeOffset := 2,
           name := some nm },
         { tag := tg, offset := 2, typeOffset := 0, byteSize := bs,
           encoding := enc, name := sn, members := ms }]
        8 { op := op0, typeOffset := 1, name := vnm }).typeName = nm ∧
    (DWARFManager_InitInfosVariable
        [{ tag := DW_TAG_typedef, offset := 1, typeOffset := 2,
           name := some nm },
         { tag := DW_TAG_typedef, offset := 2, typeOffset := 3,
           name := some nm2 },
         { tag := tg, offset := 3, typeOffset := 0, byteSize := bs,
           encoding := enc, name := sn, members := ms }]
        12 { op := op0, typeOffset := 1, name := vnm }).typeName = nm := by
  refine ⟨?_, ?_⟩ <;> rcases htg with rfl | rfl <;>
  · simp only [DWARFManager_InitInfosVariable, resolveVarLoop, resolveTypeStep,
      List.get?, DW_TAG_typedef, DW_TAG_structure_type, DW_TAG_subroutine_type,
      DW_TAG_pointer_type, DW_TAG_enumeration_type, DW_TAG_union_type,
      DW_TAG_subrange_type, DW_TAG_array_type, DW_TAG_const_type,
      DW_TAG_base_type, TypeTag_typedef, TypeTag_structure, TypeTag_union,
      TypeTag_pointer]
    simp [show ((0 : Nat) &&& 32) = 0 from rfl,
      show ((32 : Nat) &&& 32) = 32 from rfl,
      show ((33 : Nat) &&& 32) = 32 from rfl,
      show ((33 : Nat) &&& 2) = 0 from rfl,
      show ((288 : Nat) &&& 32) = 32 from rfl,
      show ((288 : Nat) &&& 2) = 0 from rfl]

/-- C6, instantiated: `typedef struct ... T;` on a variable `v` renders
`"T"`, and a two-typedef chain `U -> T -> struct` also renders the first
name. -/
theorem C6_typedef_suppression_witness :
    (DWARFManager_InitInfosVariable
        [{ tag := DW_TAG_typedef, offset := 1, typeOffset := 2,
           name := some "T" },
         { tag := DW_TAG_structure_type, offset := 2, typeOffset := 0,
           byteSize := 8, encoding := 0, name := none, members := [] }]
        8 { op := 3, typeOffset := 1, name := some "v" }).typeName = "T" ∧
    (DWARFManager_InitInfosVariable
        [{ tag := DW_TAG_typedef, offset := 1, typeOffset := 2,
           name := some "T" },
         { tag := DW_TAG_typedef, offset := 2, typeOffset := 3,
           name := some "T2" },
         { tag := DW_TAG_structure_type, offset := 3, typeOffset := 0,
           byteSize := 8, encoding := 0, name := none, members := [] }]
        12 { op := 3, typeOffset := 1, name := some "v" }).typeName = "T" :=
  C6_typedef_suppression "T" "T2" none (some "v") DW_TAG_structure_type 3 8 0
    [] (Or.inl rfl)

/-! ## Claim C8 -/

/-- C8 (confirmed): location-block decoding.  A length-5 block on a
unit-scope variable yields the big-endian address of its 4 operand bytes (and
the operation byte); any other length leaves the address at zero.  On a
subprogram child, lengths 2-5 decode the operand as signed LEB128 for a
`DW_TAG_variable` and unsigned LEB128 for a `DW_TAG_formal_parameter`; any
other length leaves the offset at zero.  Nothing fails: every shape produces
a record. -/
theorem C8_location_decode (op b1 b2 b3 b4 : Nat) (blk : List Nat) :
    (op < 256 → b1 < 256 → b2 < 256 → b3 < 256 → b4 < 256 →
      parseGlobalVariable [AttrVal.location [op, b1, b2, b3, b4]] =
        { op := op,
          addr := b1 * 2 ^ 24 + b2 * 2 ^ 16 + b3 * 2 ^ 8 + b4 }) ∧
    (blk.length ≠ 5 →
      (parseGlobalVariable [AttrVal.location blk]).addr = 0) ∧
    (2 ≤ blk.length → blk.length ≤ 5 →
      (parseLocalVariable DW_TAG_variable [AttrVal.location blk]).offset =
          ReadLEB128 (blk.drop 1) ∧
        (parseLocalVariable DW_TAG_formal_parameter
            [AttrVal.location blk]).offset =
          Int.ofNat (ReadULEB128 (blk.drop 1))) ∧
    ((blk.length < 2 ∨ 5 < blk.length) →
      (parseLocalVariable DW_TAG_variable [AttrVal.location blk]).offset = 0 ∧
        (parseLocalVariable DW_TAG_formal_parameter
            [AttrVal.location blk]).offset = 0) := by
  refine ⟨fun hop hb1 hb2 hb3 hb4 => ?_, fun hne => ?_, fun h2 h5 => ?_,
    fun hout => ?_⟩
  · simp [parseGlobalVariable, applyGlobalVarAttr, byteAt, beAddr4,
      Nat.mod_eq_of_lt, hop, hb1, hb2, hb3, hb4]
  · simp [parseGlobalVariable, applyGlobalVarAttr, hne]
  · constructor <;>
      simp [parseLocalVariable, applyLocalVarAttr, h2, h5, DW_TAG_variable,
        DW_TAG_formal_parameter]
  · have hne : ¬(2 ≤ blk.length ∧ blk.length ≤ 5) := by omega
    constructor <;>
      simp [parseLocalVariable, applyLocalVarAttr, hne]

/-- C8, instantiated: `DW_OP_addr` block `[3, 0, 0x19, 0x20, 0x40]` on a
global decodes to address `0x192040`; `DW_OP_fbreg` block `[0x91, 0x7c]`
decodes to −4 (signed) on a local variable and 124 (unsigned) on a
parameter; a length-1 block leaves the offset at zero. -/
theorem C8_location_decode_witness :
    parseGlobalVariable [AttrVal.location [3, 0, 0x19, 0x20, 0x40]] =
      { op := 3,
        addr := 0 * 2 ^ 24 + 0x19 * 2 ^ 16 + 0x20 * 2 ^ 8 + 0x40 } ∧
    (parseLocalVariable DW_TAG_variable
        [AttrVal.location [0x91, 0x7c]]).offset =
      ReadLEB128 ([0x91, 0x7c].drop 1) ∧
    (parseLocalVariable DW_TAG_formal_parameter
        [AttrVal.location [0x91, 0x7c]]).offset =
      Int.ofNat (ReadULEB128 ([0x91, 0x7c].drop 1)) ∧
    (parseLocalVariable DW_TAG_variable [AttrVal.location [0x91]]).offset = 0 := by
  have h5 := (C8_location_decode 3 0 0x19 0x20 0x40 [0x91, 0x7c]).1
    (by decide) (by decide) (by decide) (by decide) (by decide)
  have hloc := (C8_location_decode 3 0 0x19 0x20 0x40 [0x91, 0x7c]).2.2.1
    (by decide) (by decide)
  have hone := ((C8_location_decode 3 0 0x19 0x20 0x40 [0x91]).2.2.2
    (Or.inl (by decide))).1
  exact ⟨h5, hloc.1, hloc.2, hone⟩

/-! ## Claim C9 -/

/-- C9 (confirmed): in the final per-unit pass, a unit with no recorded low
address and a zero or all-ones high address, whose used-lines table was read
and whose line-pointer table exists (and with the always-zero
`LastNumUsedLinesSrc` within bounds), takes `LowPC` from the first line
record's `StartPC` and `HighPC` from the last record's `StartPC`. -/
theorem C9_range_from_line_table (cu : CU) (u : Nat × Nat)
    (us : List (Nat × Nat))
    (hused : cu.usedLinesSrc = u :: us) (hload : cu.linesLoadSrc.isSome)
    (hlast : cu.lastNumUsedLinesSrc ≤ cu.nbLinesLoadSrc)
    (hlow : cu.lowPC = 0) (hhigh : cu.highPC = 0 ∨ cu.highPC = sizetAllOnes) :
    (finishCU cu).lowPC = u.1 ∧
    (finishCU cu).highPC = ((u :: us).getLastD (0, 0)).1 := by
  unfold finishCU
  rw [if_pos hlast, hused]
  simp only [ne_eq, reduceCtorEq, not_false_eq_true, if_true,
    List.cons_ne_self]
  simp [hload, hlow, hhigh, hused]

/-- C9, instantiated: a unit with line records at 0x2000 and 0x2010 and no
root-supplied range gets `[0x2000, 0x2010]`. -/
def c9cuBase : CU :=
  { lowPC := 0, highPC := 0, nbLinesLoadSrc := 2,
    linesLoadSrc := some [some "a", some "b"],
    usedLinesSrc := [(0x2000, 1), (0x2010, 2)], lastNumUsedLinesSrc := 0 }

/-- C9 witness at `c9cuBase`. -/
theorem C9_range_from_line_table_witness :
    (finishCU c9cuBase).lowPC = 0x2000 ∧ (finishCU c9cuBase).highPC = 0x2010 := by
  have h := C9_range_from_line_table c9cuBase (0x2000, 1) [(0x2010, 2)]
    rfl rfl (by decide) rfl (Or.inl rfl)
  exact ⟨h.1, by rw [h.2]; rfl⟩

/-! ## Claim C10 -/

/-- C10 (confirmed): `DWARFManager_GetSrcNumLinesPtrFromIndex` with
`Used = false` returns `NULL` for every index and every model state; the
per-unit line-number list pointer is only reachable through the
`Used = true` variant. -/
theorem C10_full_source_variant_null (cus : List CU) (idx : Nat) :
    DWARFManager_GetSrcNumLinesPtrFromIndex cus idx false = CRes.nullR := rfl

end DWARF
